import Mathlib

/-!
# Verification of the symbol-sdk repository layer

Shallow embedding of the shared-context resolution, repository composition,
query-parameter defaulting, alias variant decoding and 64-bit value decoding
found in `src/src/infrastructure/{NamespaceHttp,AccountHttp,BlockHttp}.ts`
(the latter file also holds `RepositoryFactoryHttp`).

Parts of the repository that the claims depend on but that are not present
under `src/` (the `Http` base class, `UInt64`, `Address`, `MosaicId`, and the
rxjs `shareReplay` operator semantics) are modelled from the specification,
each such definition carrying a doc comment starting `Modelled from the spec:`.
-/

/- ## Context resolver (RepositoryFactoryHttp networkType / generationHash)

`RepositoryFactoryHttp`'s constructor builds
`this.createNetworkRepository().getNetworkType().pipe(shareReplay(1))`
when no explicit network type is configured, and `observableOf(v)` when one
is.  Every repository created by the factory receives this same observable.
-/

/-- Outcome of the one network-identity fetch: the network type value on
success, an error message on failure. -/
inductive FetchResult where
  | success (v : Nat)
  | failure (e : String)
deriving DecidableEq, Repr

/-- Modelled from the spec: the state machine of §4.4 for the rxjs
`shareReplay(1)`-cached observable built in `RepositoryFactoryHttp`'s
constructor (rxjs itself is an external library).  `unresolved`: no consumer
has subscribed yet, no fetch issued. `resolving w`: the single fetch is in
flight with `w` attached consumers. `resolved r`: the fetch settled with
outcome `r` (success or cached failure), replayed to all consumers. -/
inductive ResolverState where
  | unresolved
  | resolving (waiters : Nat)
  | resolved (r : FetchResult)
deriving DecidableEq, Repr

/-- A resolver together with the observable effects the claims speak about:
how many underlying fetches were issued, and the outcomes delivered to
consumers, in delivery order. -/
structure Resolver where
  state : ResolverState
  fetchCount : Nat
  delivered : List FetchResult
deriving DecidableEq, Repr

/-- Events of the single-threaded event loop (spec §5): a consumer demands
the tracked value (subscribes, directly or through a repository the factory
created), or the in-flight fetch settles. -/
inductive REvent where
  | demand
  | settle (r : FetchResult)
deriving DecidableEq, Repr

/-- Modelled from the spec: one event-loop step of the resolver.  The first
demand triggers the single fetch; demands while resolving attach to the
in-flight fetch; once resolved (also when resolved to a failure) the cached
outcome is replayed with no new fetch; a settle with no fetch in flight is
ignored. -/
def Resolver.step (s : Resolver) (e : REvent) : Resolver :=
  match s.state, e with
  | .unresolved, .demand => { s with state := .resolving 1, fetchCount := s.fetchCount + 1 }
  | .resolving w, .demand => { s with state := .resolving (w + 1) }
  | .resolved r, .demand => { s with delivered := s.delivered ++ [r] }
  | .resolving w, .settle r =>
      { s with state := .resolved r, delivered := s.delivered ++ List.replicate w r }
  | .unresolved, .settle _ => s
  | .resolved _, .settle _ => s

/-- Run the resolver over a whole event trace. -/
def Resolver.run (s : Resolver) (es : List REvent) : Resolver :=
  es.foldl Resolver.step s

/-- `RepositoryFactoryHttp`'s constructor: with an explicit network type the
observable is `observableOf(v)` (already resolved, no fetch will ever be
issued); without one it is the cold `shareReplay(1)` pipe (unresolved). -/
def mkResolver (explicitValue : Option Nat) : Resolver :=
  match explicitValue with
  | some v => { state := .resolved (.success v), fetchCount := 0, delivered := [] }
  | none => { state := .unresolved, fetchCount := 0, delivered := [] }

/-- Invariant tying the resolver state to its observable effects. -/
def ResolverInv (s : Resolver) : Prop :=
  match s.state with
  | .unresolved => s.fetchCount = 0 ∧ s.delivered = []
  | .resolving _ => s.fetchCount ≤ 1 ∧ s.delivered = []
  | .resolved r => s.fetchCount ≤ 1 ∧ ∀ x ∈ s.delivered, x = r

/- ## AccountHttp request issuing

`AccountHttp.getAccountInfo` (src/src/infrastructure/AccountHttp.ts) issues
the single pending request `accountRoutesApi.getAccountInfo(address.plain())`
through `this.call`; `AccountHttp` takes no network-type argument at all. -/

/-- Endpoints this development distinguishes: the account-info route, the
network-identity route and the node-info route. -/
inductive Endpoint where
  | accounts (address : String)
  | networkIdentity
  | nodeInfo
deriving DecidableEq, Repr

/-- The outbound requests issued by one `AccountHttp.getAccountInfo(address)`
call: exactly the one request of its `this.call(...)` invocation (the `Http`
base's `call` issues its pending request once, per spec §4.3, and is not
under src/). -/
def getAccountInfoRequests (address : String) : List Endpoint :=
  [.accounts address]

/- ## Alias variant decoding (NamespaceHttp.extractAlias)

`NamespaceHttp.extractAlias` (src/src/infrastructure/NamespaceHttp.ts,
lines 287-294) dispatches on `namespace.alias.type`: tag `Mosaic` builds a
`MosaicAlias` from `alias.mosaicId!`, tag `Address` builds an `AddressAlias`
from `alias.address!`, anything else (including an absent `alias` object)
yields `EmptyAlias`.  The TypeScript `!` assertions perform no runtime check:
an absent payload reaches the `MosaicId` / `Address.createFromEncoded`
constructors, whose rejection of an absent argument is the decode error the
spec names `MissingAliasPayload`. -/

/-- The `AliasType` enum (model/namespace/AliasType.ts): `None`, `Mosaic`,
`Address`. -/
inductive AliasType where
  | none
  | mosaic
  | address
deriving DecidableEq, Repr

/-- The alias part of a namespace DTO on the wire: a required type tag and
tag-dependent optional payload fields. -/
structure AliasDTO where
  type : AliasType
  mosaicId : Option String
  address : Option String
deriving DecidableEq, Repr

/-- The namespace part of a namespace-info DTO (only the fields the claims
touch: the `level0` id and the alias object, which the generated client may
omit). -/
structure NamespaceDTO where
  level0 : Option String
  aliasDto : Option AliasDTO
deriving DecidableEq, Repr

/-- A namespace-info response body; `namespaceDto` renders the DTO's
`namespace` field (a reserved word in Lean), which `getLinkedMosaicId` /
`getLinkedAddress` observe to be possibly absent. -/
structure NamespaceInfoDTOx where
  namespaceDto : Option NamespaceDTO
deriving DecidableEq, Repr

/-- The decoded alias variants (EmptyAlias / MosaicAlias / AddressAlias). -/
inductive AliasV where
  | empty
  | mosaicAlias (mosaicId : String)
  | addressAlias (addressEncoded : String)
deriving DecidableEq, Repr

/-- Decode-time errors of the alias path. -/
inductive DecodeError where
  | missingAliasPayload
deriving DecidableEq, Repr

/-- Modelled from the spec: `new MosaicId(id)` (model/mosaic/MosaicId.ts is
not under src/) rejects an absent id; that rejection is the decode error the
spec calls `MissingAliasPayload` (§4.2, §7).  Hex validation of a present id
is outside the claims and not modelled. -/
def mosaicIdFromDto : Option String → Except DecodeError String
  | Option.none => .error .missingAliasPayload
  | some s => .ok s

/-- Modelled from the spec: `Address.createFromEncoded` (model/account/
Address.ts is not under src/) rejects an absent input; that rejection is the
decode error the spec calls `MissingAliasPayload` (§4.2, §7). -/
def addressFromDtoEncoded : Option String → Except DecodeError String
  | Option.none => .error .missingAliasPayload
  | some s => .ok s

/-- `NamespaceHttp.extractAlias`: dispatch on the alias type tag; the
fallback `EmptyAlias` is returned when no tag matched, in particular when the
alias object is absent. -/
def extractAlias (ns : NamespaceDTO) : Except DecodeError AliasV :=
  match ns.aliasDto with
  | some a =>
      if a.type = AliasType.mosaic then
        (mosaicIdFromDto a.mosaicId).map AliasV.mosaicAlias
      else if a.type = AliasType.address then
        (addressFromDtoEncoded a.address).map AliasV.addressAlias
      else .ok .empty
  | Option.none => .ok .empty

/- ## Paged query defaulting

The list-style calls in src (`BlockHttp.getBlockTransactions`,
`AccountHttp.getAccountTransactions`, `NamespaceHttp.getNamespacesFromAccount`)
each pass `this.queryParams(queryParams).pageSize`,
`this.queryParams(queryParams).id` and `this.queryParams(queryParams).ordering`
— three separate evaluations — to the generated route call. -/

/-- Result ordering of a list call. -/
inductive Ordering64 where
  | asc
  | desc
deriving DecidableEq, Repr

/-- The optional paging options a caller may supply. -/
structure QueryParams where
  pageSize : Nat
  id : Option String
  ordering : Ordering64
deriving DecidableEq, Repr

/-- Modelled from the spec: `Http.queryParams` (infrastructure/Http.ts is not
under src/) substitutes the fixed defaults of §3 when no `QueryParams` is
supplied: pageSize 10, no cursor id, ascending ordering. -/
def queryParamsOrDefault : Option QueryParams → QueryParams
  | some q => q
  | Option.none => { pageSize := 10, id := Option.none, ordering := .asc }

/-- One outbound list request as the generated route receives it: the route
name, the path argument (height or plain address), and the three paging
query parameters. -/
structure PagedRequest where
  route : String
  target : String
  pageSize : Nat
  id : Option String
  ordering : Ordering64
deriving DecidableEq, Repr

/-- `BlockHttp.getBlockTransactions(height, queryParams?)`: the request it
issues, each paging parameter taken from its own `this.queryParams(...)`
evaluation as in the source. -/
def getBlockTransactionsRequest (height : String) (qp : Option QueryParams) :
    PagedRequest :=
  { route := "getBlockTransactions"
    target := height
    pageSize := (queryParamsOrDefault qp).pageSize
    id := (queryParamsOrDefault qp).id
    ordering := (queryParamsOrDefault qp).ordering }

/-- `AccountHttp.getAccountTransactions(address, queryParams?, ...)`: the
request it issues. -/
def getAccountTransactionsRequest (address : String) (qp : Option QueryParams) :
    PagedRequest :=
  { route := "getAccountConfirmedTransactions"
    target := address
    pageSize := (queryParamsOrDefault qp).pageSize
    id := (queryParamsOrDefault qp).id
    ordering := (queryParamsOrDefault qp).ordering }

/-- `NamespaceHttp.getNamespacesFromAccount(address, queryParams?)`: the
request it issues. -/
def getNamespacesFromAccountRequest (address : String) (qp : Option QueryParams) :
    PagedRequest :=
  { route := "getNamespacesFromAccount"
    target := address
    pageSize := (queryParamsOrDefault qp).pageSize
    id := (queryParamsOrDefault qp).id
    ordering := (queryParamsOrDefault qp).ordering }

/-- The same request built from a single evaluation of the defaulting
function — the spec's reading of §4.3 ("the defaulting must be pure"):
used to state that the three separate evaluations of the source agree. -/
def getAccountTransactionsRequestOnce (address : String) (qp : Option QueryParams) :
    PagedRequest :=
  let p := queryParamsOrDefault qp
  { route := "getAccountConfirmedTransactions"
    target := address
    pageSize := p.pageSize
    id := p.id
    ordering := p.ordering }

/-- Single-evaluation variant of `getNamespacesFromAccountRequest`. -/
def getNamespacesFromAccountRequestOnce (address : String) (qp : Option QueryParams) :
    PagedRequest :=
  let p := queryParamsOrDefault qp
  { route := "getNamespacesFromAccount"
    target := address
    pageSize := p.pageSize
    id := p.id
    ordering := p.ordering }

/- ## Unsigned 64-bit decimal-string codec

`UInt64.fromNumericString` is used throughout `AccountHttp.toAccountInfo` and
`BlockHttp.toBlockInfo`; model/UInt64.ts itself is not under src/, so the
codec is modelled from spec §3 and §4.1. -/

/-- Canonical 64-bit value as two 32-bit words (higher, lower), as
model/UInt64.ts stores it. -/
structure Unsigned64 where
  higher : Nat
  lower : Nat
deriving DecidableEq, Repr

/-- Numeric value of a decimal digit character. -/
def charDigitVal (c : Char) : Nat := c.toNat - 48

/-- Whether a character is a decimal digit. -/
def isDecDigit (c : Char) : Bool := 48 ≤ c.toNat && c.toNat ≤ 57

/-- The character of a decimal digit. -/
def decDigitChar (d : Nat) : Char := Char.ofNat (d + 48)

/-- A canonical decimal numeral: nonempty, all digits, and no leading zero
except for the single-digit numeral `0`. -/
def isCanonicalDecimal (cs : List Char) : Bool :=
  !cs.isEmpty && cs.all isDecDigit && (cs.length == 1 || cs.head? != some '0')

/-- The numeric value of a big-endian digit-character list. -/
def decimalValue (cs : List Char) : Nat :=
  Nat.ofDigits 10 (cs.map charDigitVal).reverse

/-- Modelled from the spec: `UInt64.fromNumericString(decimalString)`
(model/UInt64.ts is not under src/) — decodes a valid non-negative base-10
numeral representable in 64 bits into the two 32-bit words, failing
(`MalformedValue`) on anything else (§4.1). -/
def fromNumericString (s : String) : Option Unsigned64 :=
  if isCanonicalDecimal s.data = true ∧ decimalValue s.data < 2 ^ 64 then
    some ⟨decimalValue s.data / 2 ^ 32, decimalValue s.data % 2 ^ 32⟩
  else Option.none

/-- The spec's validity condition on input strings, stated on its own: a
valid non-negative base-10 integer representable in 64 bits. -/
def validNumeric64 (s : String) : Bool :=
  isCanonicalDecimal s.data && decide (decimalValue s.data < 2 ^ 64)

/-- Modelled from the spec: `UInt64.toString()` — the decimal numeral of the
64-bit value `higher * 2^32 + lower`. -/
def toNumericString (u : Unsigned64) : String :=
  if u.higher * 2 ^ 32 + u.lower = 0 then "0"
  else String.mk ((Nat.digits 10 (u.higher * 2 ^ 32 + u.lower)).reverse.map decDigitChar)

/- ## Address wire-form codec

`Address.createFromRawAddress` / `Address.createFromEncoded` /
`address.encoded()` live in model/account/Address.ts and core/format, none of
which are under src/; they are modelled from spec §4.1: a raw human-facing
base32 form and an encoded hex form, both normalizing to one canonical
internal value (here: the 25 address bytes). -/

/-- Value of a base32 character (A-Z → 0..25, 2-7 → 26..31). -/
def b32CharVal (c : Char) : Option Nat :=
  if 65 ≤ c.toNat ∧ c.toNat ≤ 90 then some (c.toNat - 65)
  else if 50 ≤ c.toNat ∧ c.toNat ≤ 55 then some (c.toNat - 50 + 26)
  else Option.none

/-- Accumulate the numeric value of a base32 string (5 bits per character). -/
def b32Value (cs : List Char) (acc : Nat) : Option Nat :=
  match cs with
  | [] => some acc
  | c :: rest =>
      match b32CharVal c with
      | some d => b32Value rest (acc * 32 + d)
      | Option.none => Option.none

/-- Big-endian byte expansion of a value into `n` bytes. -/
def natToBytesBE : Nat → Nat → List Nat
  | 0, _ => []
  | n + 1, v => natToBytesBE n (v / 256) ++ [v % 256]

/-- Modelled from the spec: `Address.createFromRawAddress` — normalize the
raw human-facing form (drop hyphens, uppercase), require the 40-character
base32 address and decode it to the canonical 25 bytes (200 bits). -/
def decodeRawAddress (s : String) : Option (List Nat) :=
  if ((s.data.filter (fun c => c ≠ '-')).map Char.toUpper).length = 40 then
    match b32Value ((s.data.filter (fun c => c ≠ '-')).map Char.toUpper) 0 with
    | some v => some (natToBytesBE 25 v)
    | Option.none => Option.none
  else Option.none

/-- Uppercase hex character of a nibble. -/
def hexDigitChar (d : Nat) : Char :=
  if d < 10 then Char.ofNat (d + 48) else Char.ofNat (d + 55)

/-- Hex characters of a byte list, two per byte. -/
def bytesToHexChars : List Nat → List Char
  | [] => []
  | b :: bs => hexDigitChar (b / 16) :: hexDigitChar (b % 16) :: bytesToHexChars bs

/-- Modelled from the spec: `address.encoded()` — the encoded wire form, the
hex rendering of the canonical bytes. -/
def toEncodedAddress (bytes : List Nat) : String :=
  String.mk (bytesToHexChars bytes)

/-- Value of a hex character (0-9, A-F, a-f). -/
def hexCharVal (c : Char) : Option Nat :=
  if 48 ≤ c.toNat ∧ c.toNat ≤ 57 then some (c.toNat - 48)
  else if 65 ≤ c.toNat ∧ c.toNat ≤ 70 then some (c.toNat - 55)
  else if 97 ≤ c.toNat ∧ c.toNat ≤ 102 then some (c.toNat - 87)
  else Option.none

/-- Parse hex characters pairwise back into bytes. -/
def hexCharsToBytes : List Char → Option (List Nat)
  | [] => some []
  | c1 :: c2 :: rest =>
      match hexCharVal c1, hexCharVal c2, hexCharsToBytes rest with
      | some h, some l, some bs => some ((h * 16 + l) :: bs)
      | _, _, _ => Option.none
  | [_] => Option.none

/-- Modelled from the spec: `Address.createFromEncoded` — decode the encoded
hex wire form back to the canonical bytes (`convert.hexToUint8` followed by
`RawAddress.addressToString` normalization). -/
def decodeEncodedAddress (s : String) : Option (List Nat) :=
  hexCharsToBytes s.data

/- ## Linked mosaic-id / address extraction

`NamespaceHttp.getLinkedMosaicId` (src lines 193-213) and
`NamespaceHttp.getLinkedAddress` (src lines 220-243): the mapping functions
applied to the `getNamespace` response body. -/

/-- Failure modes of the two linked-alias mappers: the raw response body is
thrown when the `namespace` field is absent; a "No mosaicId/address is
linked" `Error` when the alias does not carry the requested link; `jsError`
for a TypeScript runtime throw outside those two (reading `.type` of an
absent alias object, or malformed hex reaching `convert.hexToUint8`). -/
inductive LinkError where
  | rawBody (body : NamespaceInfoDTOx)
  | noLink (message : String)
  | jsError
deriving DecidableEq, Repr

/-- JS truthiness test of an optional string field, as used by the
`!namespaceInfoDTO.namespace.alias.mosaicId` guard: `undefined` and the
empty string are both falsy. -/
def optStrFalsy : Option String → Bool
  | Option.none => true
  | some s => s == ""

/-- The `${namespaceInfoDTO.namespace.level0}` text of the error message (an
absent field prints as `undefined` in a JS template literal). -/
def levelZeroText (ns : NamespaceDTO) : String :=
  ns.level0.getD "undefined"

/-- `NamespaceHttp.getLinkedMosaicId`'s mapping of the response body, guard
for guard from the source: absent `namespace` throws the body itself; then
`alias.type === None || alias.type !== Mosaic || !alias.mosaicId` raises the
"No mosaicId is linked" error; otherwise `new MosaicId(alias.mosaicId)`. -/
def getLinkedMosaicIdMap (body : NamespaceInfoDTOx) : Except LinkError String :=
  match body.namespaceDto with
  | Option.none => .error (.rawBody body)
  | some ns =>
      match ns.aliasDto with
      | Option.none => .error .jsError
      | some a =>
          if a.type = AliasType.none ∨ a.type ≠ AliasType.mosaic ∨
              optStrFalsy a.mosaicId = true then
            .error (.noLink ("No mosaicId is linked to namespace '" ++
              levelZeroText ns ++ "'"))
          else .ok (a.mosaicId.getD "")

/-- `NamespaceHttp.getLinkedAddress`'s mapping of the response body: absent
`namespace` throws the body itself; then
`alias.type === None || alias.type !== Address || !alias.address` raises the
"No address is linked" error; otherwise the payload is hex-decoded to the
canonical address bytes. -/
def getLinkedAddressMap (body : NamespaceInfoDTOx) : Except LinkError (List Nat) :=
  match body.namespaceDto with
  | Option.none => .error (.rawBody body)
  | some ns =>
      match ns.aliasDto with
      | Option.none => .error .jsError
      | some a =>
          if a.type = AliasType.none ∨ a.type ≠ AliasType.address ∨
              optStrFalsy a.address = true then
            .error (.noLink ("No address is linked to namespace '" ++
              levelZeroText ns ++ "'"))
          else
            match decodeEncodedAddress (a.address.getD "") with
            | some bs => .ok bs
            | Option.none => .error .jsError

theorem resolverInv_step (s : Resolver) (e : REvent) (h : ResolverInv s) :
    ResolverInv (s.step e) := by
  obtain ⟨st, c, d⟩ := s
  cases e with
  | demand =>
    cases st with
    | unresolved =>
      simp only [ResolverInv] at h
      simp [Resolver.step, ResolverInv, h.1, h.2]
    | resolving w =>
      simp only [ResolverInv] at h
      exact ⟨h.1, h.2⟩
    | resolved r =>
      simp only [ResolverInv] at h ⊢
      refine ⟨h.1, ?_⟩
      intro x hx
      rcases List.mem_append.mp hx with hx | hx
      · exact h.2 x hx
      · simpa using hx
  | settle r =>
    cases st with
    | unresolved => exact h
    | resolving w =>
      simp only [ResolverInv] at h ⊢
      refine ⟨h.1, ?_⟩
      intro x hx
      rcases List.mem_append.mp hx with hx | hx
      · simp [h.2] at hx
      · exact List.eq_of_mem_replicate hx
    | resolved r' => exact h

theorem resolverInv_run (s : Resolver) (es : List REvent) (h : ResolverInv s) :
    ResolverInv (s.run es) := by
  induction es generalizing s with
  | nil => exact h
  | cons e es ih =>
    exact ih (s.step e) (resolverInv_step s e h)

theorem resolverInv_mk (v : Option Nat) : ResolverInv (mkResolver v) := by
  cases v with
  | none => simp [mkResolver, ResolverInv]
  | some v => simp [mkResolver, ResolverInv]

/-- From an invariant state, the fetch count never exceeds 1 and all
delivered outcomes agree. -/
theorem resolver_run_conclusions (s : Resolver) (es : List REvent)
    (h : ResolverInv s) :
    (s.run es).fetchCount ≤ 1 ∧
      ∀ x ∈ (s.run es).delivered, ∀ y ∈ (s.run es).delivered, x = y := by
  have hinv := resolverInv_run s es h
  rcases hs : (s.run es).state with _ | w | r
  · simp only [ResolverInv, hs] at hinv
    exact ⟨le_of_eq hinv.1 |>.trans (Nat.zero_le 1), by simp [hinv.2]⟩
  · simp only [ResolverInv, hs] at hinv
    exact ⟨hinv.1, by simp [hinv.2]⟩
  · simp only [ResolverInv, hs] at hinv
    refine ⟨hinv.1, ?_⟩
    intro x hx y hy
    rw [hinv.2 x hx, hinv.2 y hy]

/-- Replaying from a resolved state: every further demand is served from the
cached outcome, with no change to the fetch count. -/
theorem resolver_resolved_replay (r : FetchResult) (c : Nat) (d : List FetchResult)
    (n : Nat) :
    Resolver.run ⟨.resolved r, c, d⟩ (List.replicate n .demand) =
      ⟨.resolved r, c, d ++ List.replicate n r⟩ := by
  induction n generalizing d with
  | zero => simp [Resolver.run]
  | succ n ih =>
    rw [List.replicate_succ]
    have hstep : Resolver.step ⟨.resolved r, c, d⟩ .demand = ⟨.resolved r, c, d ++ [r]⟩ := rfl
    simp only [Resolver.run, List.foldl_cons]
    rw [hstep]
    have h2 := ih (d ++ [r])
    simp only [Resolver.run] at h2
    rw [h2, List.replicate_succ]
    simp

/-- From an explicitly-supplied context, the resolver stays resolved at that
value, never fetches, and serves that value to everyone. -/
theorem resolver_explicit_run (v : Nat) (s : Resolver) (es : List REvent)
    (h : s.state = .resolved (.success v) ∧ s.fetchCount = 0 ∧
      ∀ x ∈ s.delivered, x = .success v) :
    (s.run es).state = .resolved (.success v) ∧ (s.run es).fetchCount = 0 ∧
      ∀ x ∈ (s.run es).delivered, x = .success v := by
  induction es generalizing s with
  | nil => exact h
  | cons e es ih =>
    refine ih (s.step e) ?_
    obtain ⟨st, c, d⟩ := s
    obtain ⟨h1, h2, h3⟩ := h
    simp only at h1
    subst h1
    cases e with
    | demand =>
      refine ⟨rfl, h2, ?_⟩
      intro x hx
      rcases List.mem_append.mp hx with hx | hx
      · exact h3 x hx
      · simpa using hx
    | settle r => exact ⟨rfl, h2, h3⟩

/-- Claim C1: for a factory constructed without an explicit network type, over any
event-loop trace of concurrent demands (direct `getNetworkType()`
subscriptions or ones through repositories sharing the factory's observable)
and fetch settlement, at most one underlying network-identity fetch is issued
and all delivered outcomes agree. -/
theorem factory_networkType_single_fetch_shared (events : List REvent) :
    ((mkResolver none).run events).fetchCount ≤ 1 ∧
      ∀ x ∈ ((mkResolver none).run events).delivered,
        ∀ y ∈ ((mkResolver none).run events).delivered, x = y :=
  resolver_run_conclusions (mkResolver none) events (resolverInv_mk none)

theorem factory_networkType_single_fetch_shared_witness :
    ((mkResolver none).run
        [REvent.demand, REvent.demand, REvent.settle (FetchResult.success 152),
          REvent.demand]).fetchCount ≤ 1 ∧
      FetchResult.success 152 = FetchResult.success 152 :=
  ⟨(factory_networkType_single_fetch_shared
      [REvent.demand, REvent.demand, REvent.settle (FetchResult.success 152),
        REvent.demand]).1,
    (factory_networkType_single_fetch_shared
      [REvent.demand, REvent.demand, REvent.settle (FetchResult.success 152),
        REvent.demand]).2
      (FetchResult.success 152) (by decide) (FetchResult.success 152) (by decide)⟩

/-- Claim C2: for a factory constructed with an explicit network type, no
network-identity fetch is ever issued and every consumer observes the
supplied value; and `createAccountRepository().getAccountInfo(addr)` issues
exactly one HTTP call, to the accounts route for that address, never to the
network-identity endpoint. -/
theorem factory_explicit_networkType_no_fetch :
    (∀ (v : Nat) (events : List REvent),
        ((mkResolver (some v)).run events).fetchCount = 0 ∧
          ∀ x ∈ ((mkResolver (some v)).run events).delivered, x = .success v) ∧
      ∀ address : String,
        getAccountInfoRequests address = [Endpoint.accounts address] ∧
          (getAccountInfoRequests address).length = 1 ∧
          Endpoint.networkIdentity ∉ getAccountInfoRequests address := by
  constructor
  · intro v events
    have h := resolver_explicit_run v (mkResolver (some v)) events
      ⟨rfl, rfl, by intro x hx; simp [mkResolver] at hx⟩
    exact ⟨h.2.1, h.2.2⟩
  · intro address
    refine ⟨rfl, rfl, ?_⟩
    simp [getAccountInfoRequests]

theorem factory_explicit_networkType_no_fetch_witness :
    ((mkResolver (some 104)).run
        [REvent.demand, REvent.settle (FetchResult.failure "boom"),
          REvent.demand]).fetchCount = 0 ∧
      FetchResult.success 104 = FetchResult.success 104 ∧
      getAccountInfoRequests "TADDR" = [Endpoint.accounts "TADDR"] :=
  ⟨(factory_explicit_networkType_no_fetch.1 104
      [REvent.demand, REvent.settle (FetchResult.failure "boom"), REvent.demand]).1,
    (factory_explicit_networkType_no_fetch.1 104
      [REvent.demand, REvent.settle (FetchResult.failure "boom"), REvent.demand]).2
      (FetchResult.success 104) (by decide),
    (factory_explicit_networkType_no_fetch.2 "TADDR").1⟩

/-- Claim C3: once the factory's first (and only) network-identity fetch fails,
every subsequent subscription to `getNetworkType()` observes that same
cached failure, with no second fetch and no re-resolution: after the failed
settle and `n` further demands, the fetch count is still 1 and all `n + 1`
deliveries are that failure. -/
theorem factory_failed_fetch_cached (e : String) (n : Nat) :
    ((mkResolver none).run
        ([REvent.demand, REvent.settle (FetchResult.failure e)] ++
          List.replicate n REvent.demand)).fetchCount = 1 ∧
      ((mkResolver none).run
        ([REvent.demand, REvent.settle (FetchResult.failure e)] ++
          List.replicate n REvent.demand)).delivered =
        List.replicate (n + 1) (FetchResult.failure e) := by
  have hpre : (mkResolver none).run [REvent.demand, REvent.settle (FetchResult.failure e)] =
      ⟨.resolved (.failure e), 1, [.failure e]⟩ := rfl
  have hsplit : (mkResolver none).run
      ([REvent.demand, REvent.settle (FetchResult.failure e)] ++
        List.replicate n REvent.demand) =
      Resolver.run ⟨.resolved (.failure e), 1, [.failure e]⟩
        (List.replicate n REvent.demand) := by
    simp only [Resolver.run, List.foldl_append]
    rw [show List.foldl Resolver.step (mkResolver none)
        [REvent.demand, REvent.settle (FetchResult.failure e)] =
        (⟨.resolved (.failure e), 1, [.failure e]⟩ : Resolver) from hpre]
  rw [hsplit, resolver_resolved_replay]
  constructor
  · rfl
  · simp [List.replicate_succ]

/-- Claim C4: a namespace DTO whose alias tag claims the mosaic (resp. address)
variant but whose `mosaicId` (resp. `address`) payload field is absent
decodes to the `MissingAliasPayload` error, while the `None` (empty) variant
is the fallback when the alias discriminator object itself is absent. -/
theorem extractAlias_missing_payload_rejected :
    (∀ (ns : NamespaceDTO) (a : AliasDTO), ns.aliasDto = some a →
        a.type = AliasType.mosaic → a.mosaicId = Option.none →
        extractAlias ns = .error .missingAliasPayload) ∧
      (∀ (ns : NamespaceDTO) (a : AliasDTO), ns.aliasDto = some a →
        a.type = AliasType.address → a.address = Option.none →
        extractAlias ns = .error .missingAliasPayload) ∧
      ∀ ns : NamespaceDTO, ns.aliasDto = Option.none →
        extractAlias ns = .ok .empty := by
  refine ⟨?_, ?_, ?_⟩
  · intro ns a h1 h2 h3
    simp [extractAlias, h1, h2, h3, mosaicIdFromDto, Except.map]
  · intro ns a h1 h2 h3
    simp [extractAlias, h1, h2, h3, addressFromDtoEncoded, Except.map]
  · intro ns h1
    simp [extractAlias, h1]

theorem extractAlias_missing_payload_rejected_witness :
    extractAlias ⟨some "84B3552D375FFA4B",
        some ⟨AliasType.mosaic, Option.none, Option.none⟩⟩ =
      .error .missingAliasPayload ∧
    extractAlias ⟨some "84B3552D375FFA4B",
        some ⟨AliasType.address, Option.none, Option.none⟩⟩ =
      .error .missingAliasPayload ∧
    extractAlias ⟨some "84B3552D375FFA4B", Option.none⟩ = .ok .empty :=
  ⟨extractAlias_missing_payload_rejected.1 _ _ rfl rfl rfl,
    extractAlias_missing_payload_rejected.2.1 _ _ rfl rfl rfl,
    extractAlias_missing_payload_rejected.2.2 _ rfl⟩

/-- Claim C5: an alias whose discriminator is the `none` tag decodes to the empty
variant whatever stray `mosaicId` / `address` payload fields are present —
the tag alone decides the variant. -/
theorem extractAlias_none_tag_yields_empty (ns : NamespaceDTO) (a : AliasDTO)
    (h1 : ns.aliasDto = some a) (h2 : a.type = AliasType.none) :
    extractAlias ns = .ok .empty := by
  simp [extractAlias, h1, h2]

theorem extractAlias_none_tag_yields_empty_witness :
    extractAlias ⟨some "84B3552D375FFA4B",
        some ⟨AliasType.none, some "0DC67FBE1CAD29E3", some "985532"⟩⟩ =
      .ok .empty :=
  extractAlias_none_tag_yields_empty _ _ rfl rfl

/-- Claim C8: each list-style call with the paging parameter omitted issues its
request with pageSize 10, no cursor id and ascending ordering. -/
theorem paged_requests_default_paging :
    (∀ height : String,
        (getBlockTransactionsRequest height Option.none).pageSize = 10 ∧
          (getBlockTransactionsRequest height Option.none).id = Option.none ∧
          (getBlockTransactionsRequest height Option.none).ordering = .asc) ∧
      (∀ address : String,
        (getAccountTransactionsRequest address Option.none).pageSize = 10 ∧
          (getAccountTransactionsRequest address Option.none).id = Option.none ∧
          (getAccountTransactionsRequest address Option.none).ordering = .asc) ∧
      ∀ address : String,
        (getNamespacesFromAccountRequest address Option.none).pageSize = 10 ∧
          (getNamespacesFromAccountRequest address Option.none).id = Option.none ∧
          (getNamespacesFromAccountRequest address Option.none).ordering = .asc :=
  ⟨fun _ => ⟨rfl, rfl, rfl⟩, fun _ => ⟨rfl, rfl, rfl⟩, fun _ => ⟨rfl, rfl, rfl⟩⟩

/-- Claim C9: query-parameter defaulting is a pure function of the optional paging
value, so the three separate `queryParams(q)` evaluations a request builder
performs always agree: the built request equals the one built from a single
evaluation, whether the paging value is supplied or absent. -/
theorem queryParams_defaulting_deterministic :
    (∀ qp : Option QueryParams, queryParamsOrDefault qp = queryParamsOrDefault qp) ∧
      (∀ (address : String) (qp : Option QueryParams),
        getAccountTransactionsRequest address qp =
          getAccountTransactionsRequestOnce address qp) ∧
      ∀ (address : String) (qp : Option QueryParams),
        getNamespacesFromAccountRequest address qp =
          getNamespacesFromAccountRequestOnce address qp :=
  ⟨fun _ => rfl, fun _ _ => rfl, fun _ _ => rfl⟩

/-- Claim C10 counterexample: a response whose alias claims the mosaic variant and
carries a present (but empty) `mosaicId` payload.  The claim predicts the
call returns the MosaicId built from the payload; the source's falsy guard
`!namespaceInfoDTO.namespace.alias.mosaicId` treats the empty string exactly
like an absent field, so the call fails with the "No mosaicId is linked"
error instead. -/
theorem getLinkedMosaicIdMap_empty_payload_counterexample :
    getLinkedMosaicIdMap
        ⟨some ⟨some "84B3552D375FFA4B",
          some ⟨AliasType.mosaic, some "", Option.none⟩⟩⟩ =
      .error (.noLink "No mosaicId is linked to namespace '84B3552D375FFA4B'") ∧
    getLinkedMosaicIdMap
        ⟨some ⟨some "84B3552D375FFA4B",
          some ⟨AliasType.mosaic, some "", Option.none⟩⟩⟩ ≠ .ok "" := by
  constructor
  · rfl
  · intro h
    simp [getLinkedMosaicIdMap, optStrFalsy] at h

/-- Claim C10 (amended): for `getLinkedMosaicId` (resp. `getLinkedAddress`): an
absent `namespace` field throws the raw body; an alias whose type is not the
Mosaic (resp. Address) type — including the None type — or whose payload
field is absent **or empty** fails with the "No mosaicId (resp. address) is
linked" error naming `level0`; otherwise the MosaicId built from the payload
(resp. the address decoded from the encoded wire form) is returned. -/
theorem linked_alias_mappers_behavior :
    (∀ body : NamespaceInfoDTOx, body.namespaceDto = Option.none →
        getLinkedMosaicIdMap body = .error (.rawBody body) ∧
          getLinkedAddressMap body = .error (.rawBody body)) ∧
      (∀ (body : NamespaceInfoDTOx) (ns : NamespaceDTO) (a : AliasDTO),
        body.namespaceDto = some ns → ns.aliasDto = some a →
          ((a.type ≠ AliasType.mosaic ∨ a.mosaicId = Option.none ∨
              a.mosaicId = some "") →
            getLinkedMosaicIdMap body =
              .error (.noLink ("No mosaicId is linked to namespace '" ++
                levelZeroText ns ++ "'"))) ∧
          ∀ m : String, a.type = AliasType.mosaic → a.mosaicId = some m →
            m ≠ "" → getLinkedMosaicIdMap body = .ok m) ∧
      ∀ (body : NamespaceInfoDTOx) (ns : NamespaceDTO) (a : AliasDTO),
        body.namespaceDto = some ns → ns.aliasDto = some a →
          ((a.type ≠ AliasType.address ∨ a.address = Option.none ∨
              a.address = some "") →
            getLinkedAddressMap body =
              .error (.noLink ("No address is linked to namespace '" ++
                levelZeroText ns ++ "'"))) ∧
          ∀ (s : String) (bs : List Nat), a.type = AliasType.address →
            a.address = some s → s ≠ "" → decodeEncodedAddress s = some bs →
            getLinkedAddressMap body = .ok bs := by
  refine ⟨?_, ?_, ?_⟩
  · intro body h
    obtain ⟨bns⟩ := body
    simp only at h
    subst h
    exact ⟨rfl, rfl⟩
  · intro body ns a hbody hns
    obtain ⟨bns⟩ := body
    simp only at hbody
    subst hbody
    constructor
    · intro h
      rcases h with h | h | h
      · simp [getLinkedMosaicIdMap, hns, h]
      · simp [getLinkedMosaicIdMap, hns, h, optStrFalsy]
      · simp [getLinkedMosaicIdMap, hns, h, optStrFalsy]
    · intro m htype hm hne
      simp [getLinkedMosaicIdMap, hns, htype, hm, optStrFalsy, hne]
  · intro body ns a hbody hns
    obtain ⟨bns⟩ := body
    simp only at hbody
    subst hbody
    constructor
    · intro h
      rcases h with h | h | h
      · simp [getLinkedAddressMap, hns, h]
      · simp [getLinkedAddressMap, hns, h, optStrFalsy]
      · simp [getLinkedAddressMap, hns, h, optStrFalsy]
    · intro s bs htype hs hne hdec
      simp [getLinkedAddressMap, hns, htype, hs, optStrFalsy, hne, hdec]

theorem linked_alias_mappers_behavior_witness :
    getLinkedMosaicIdMap ⟨Option.none⟩ = .error (.rawBody ⟨Option.none⟩) ∧
    getLinkedMosaicIdMap
        ⟨some ⟨some "A", some ⟨AliasType.mosaic, some "0DC67FBE1CAD29E3",
          Option.none⟩⟩⟩ = .ok "0DC67FBE1CAD29E3" ∧
    getLinkedAddressMap
        ⟨some ⟨some "A", some ⟨AliasType.address, Option.none, some "9855"⟩⟩⟩ =
      .ok [152, 85] :=
  ⟨(linked_alias_mappers_behavior.1 ⟨Option.none⟩ rfl).1,
    (linked_alias_mappers_behavior.2.1 _ _ _ rfl rfl).2 "0DC67FBE1CAD29E3" rfl rfl
      (by decide),
    (linked_alias_mappers_behavior.2.2 _ _ _ rfl rfl).2 "9855" [152, 85] rfl rfl
      (by decide) (by decide)⟩

theorem charDigitVal_lt_ten {c : Char} (h : isDecDigit c = true) :
    charDigitVal c < 10 := by
  simp only [isDecDigit, Bool.and_eq_true, decide_eq_true_eq] at h
  simp only [charDigitVal]
  omega

theorem decDigitChar_charDigitVal {c : Char} (h : isDecDigit c = true) :
    decDigitChar (charDigitVal c) = c := by
  simp only [isDecDigit, Bool.and_eq_true, decide_eq_true_eq] at h
  have hv : charDigitVal c + 48 = c.toNat := by
    simp only [charDigitVal]
    omega
  rw [decDigitChar, hv, Char.ofNat_toNat]

theorem char_of_digitVal_zero {c : Char} (h : isDecDigit c = true)
    (h0 : charDigitVal c = 0) : c = '0' := by
  have hc := decDigitChar_charDigitVal h
  rw [h0] at hc
  exact hc.symm

theorem digits_decimalValue_of_head_ne_zero (c : Char) (cs : List Char)
    (hall : ∀ x ∈ c :: cs, isDecDigit x = true) (hc : c ≠ '0') :
    Nat.digits 10 (decimalValue (c :: cs)) = ((c :: cs).map charDigitVal).reverse := by
  apply Nat.digits_ofDigits 10 (by norm_num)
  · intro l hl
    rw [List.mem_reverse] at hl
    obtain ⟨x, hx, rfl⟩ := List.mem_map.mp hl
    exact charDigitVal_lt_ten (hall x hx)
  · intro hne
    have hhd : ((c :: cs).map charDigitVal) ≠ [] := by simp
    rw [List.getLast_reverse hne]
    simp only [List.map_cons, List.head_cons]
    intro h0
    exact hc (char_of_digitVal_zero (hall c (by simp)) h0)

/-- Claim C6: for every valid decimal string within 64-bit range, encoding the
Unsigned64 obtained by decoding it yields the identical string,
`encode(decode(s)) = s`; and decoding fails for any string that is not a
valid non-negative base-10 integer representable in 64 bits. -/
theorem fromNumericString_round_trip :
    (∀ (s : String) (u : Unsigned64), fromNumericString s = some u →
        toNumericString u = s) ∧
      ∀ s : String, validNumeric64 s = false → fromNumericString s = Option.none := by
  constructor
  · intro s u h
    obtain ⟨cs⟩ := s
    rw [fromNumericString] at h
    split at h
    case isFalse => exact absurd h (by simp)
    case isTrue hc =>
      obtain ⟨hcan, hlt⟩ := hc
      injection h with h
      subst h
      cases cs with
      | nil => simp [isCanonicalDecimal] at hcan
      | cons c cs' =>
        have hv : decimalValue (String.mk (c :: cs')).data / 2 ^ 32 * 2 ^ 32 +
            decimalValue (String.mk (c :: cs')).data % 2 ^ 32 =
            decimalValue (c :: cs') := by
          rw [Nat.mul_comm]
          exact Nat.div_add_mod _ _
        rw [toNumericString]
        dsimp only at hv hcan hlt ⊢
        rw [hv]
        simp only [isCanonicalDecimal, List.isEmpty_cons, Bool.not_false, Bool.true_and,
          Bool.and_eq_true, List.all_eq_true, Bool.or_eq_true, beq_iff_eq, bne_iff_ne,
          List.head?_cons, List.length_cons] at hcan
        obtain ⟨hall, hthird⟩ := hcan
        by_cases hc0 : c = '0'
        · rcases hthird with hlen | hne
          · have hnil : cs' = [] := List.length_eq_zero.mp (by omega)
            subst hnil
            subst hc0
            rw [if_pos (by decide)]
          · exact absurd (congrArg some hc0) hne
        · have hdig := digits_decimalValue_of_head_ne_zero c cs' hall hc0
          have hvne : decimalValue (c :: cs') ≠ 0 := by
            intro h0
            rw [h0] at hdig
            simp [Nat.digits] at hdig
          rw [if_neg hvne, hdig, List.reverse_reverse, List.map_map]
          have hmap : (c :: cs').map (decDigitChar ∘ charDigitVal) = (c :: cs').map id :=
            List.map_congr_left (fun x hx => decDigitChar_charDigitVal (hall x hx))
          rw [hmap, List.map_id]
  · intro s hval
    rw [fromNumericString, if_neg]
    rintro ⟨h1, h2⟩
    simp only [validNumeric64, h1, Bool.true_and, decide_eq_false_iff_not] at hval
    exact hval h2

theorem fromNumericString_round_trip_witness :
    fromNumericString "12345" = some ⟨0, 12345⟩ ∧
    toNumericString ⟨0, 12345⟩ = "12345" ∧
    validNumeric64 "12a" = false ∧
    fromNumericString "12a" = Option.none :=
  ⟨by decide, fromNumericString_round_trip.1 "12345" ⟨0, 12345⟩ (by decide),
    by decide, fromNumericString_round_trip.2 "12a" (by decide)⟩

theorem hexCharVal_hexDigitChar : ∀ d, d < 16 → hexCharVal (hexDigitChar d) = some d := by
  decide

theorem natToBytesBE_lt : ∀ (n v : Nat), ∀ b ∈ natToBytesBE n v, b < 256 := by
  intro n
  induction n with
  | zero =>
    intro v b hb
    simp [natToBytesBE] at hb
  | succ n ih =>
    intro v b hb
    rw [natToBytesBE] at hb
    rcases List.mem_append.mp hb with hb | hb
    · exact ih _ b hb
    · simp only [List.mem_singleton] at hb
      subst hb
      exact Nat.mod_lt _ (by norm_num)

theorem decodeEncoded_toEncoded (bs : List Nat) :
    decodeEncodedAddress (toEncodedAddress bs) = hexCharsToBytes (bytesToHexChars bs) := rfl

theorem hexCharsToBytes_bytesToHexChars : ∀ bs : List Nat, (∀ b ∈ bs, b < 256) →
    hexCharsToBytes (bytesToHexChars bs) = some bs := by
  intro bs
  induction bs with
  | nil => intro _; rfl
  | cons b bs ih =>
    intro hall
    have hb : b < 256 := hall b (by simp)
    have h1 : hexCharVal (hexDigitChar (b / 16)) = some (b / 16) :=
      hexCharVal_hexDigitChar _ (by omega)
    have h2 : hexCharVal (hexDigitChar (b % 16)) = some (b % 16) :=
      hexCharVal_hexDigitChar _ (by omega)
    have hrest := ih (fun x hx => hall x (List.mem_cons_of_mem b hx))
    rw [bytesToHexChars, hexCharsToBytes, h1, h2, hrest]
    have hdm : b / 16 * 16 + b % 16 = b := by omega
    dsimp only
    rw [hdm]

/-- Claim C7: a raw-form address decodes to a canonical byte value whose encoded
wire form decodes back to the same canonical value:
`decodeEncoded(toEncoded(decodeRaw(a))) = decodeRaw(a)`. -/
theorem address_decode_encode_round_trip (s : String) (addr : List Nat)
    (h : decodeRawAddress s = some addr) :
    decodeEncodedAddress (toEncodedAddress addr) = some addr := by
  rw [decodeRawAddress] at h
  split at h
  case isFalse => exact absurd h (by simp)
  case isTrue hlen =>
    cases hb : b32Value ((s.data.filter (fun c => c ≠ '-')).map Char.toUpper) 0 with
    | none =>
      rw [hb] at h
      exact absurd h (by simp)
    | some v =>
      rw [hb] at h
      dsimp only at h
      rw [Option.some_inj] at h
      subst h
      exact (decodeEncoded_toEncoded (natToBytesBE 25 v)).trans
        (hexCharsToBytes_bytesToHexChars _ (natToBytesBE_lt 25 v))

theorem address_decode_encode_round_trip_witness :
    decodeRawAddress "AAAAAAAAAAAAAAAAAAAAAAAAAAAAAAAAAAAAAAAA" =
        some (natToBytesBE 25 0) ∧
      decodeEncodedAddress (toEncodedAddress (natToBytesBE 25 0)) =
        some (natToBytesBE 25 0) :=
  ⟨by rfl,
    address_decode_encode_round_trip "AAAAAAAAAAAAAAAAAAAAAAAAAAAAAAAAAAAAAAAA"
      (natToBytesBE 25 0) (by rfl)⟩
